import Mathlib

/-!
Shallow embedding of `src/streamlit.py` (YouTube trending + video chatbot).

The embedding translates the program's core logic — the keyword fallback
search, the OpenAI delegation strategy, the context assembly, the comment
and trending fetchers, and the question-handling dispatch — into pure Lean
functions.  Python strings are modelled as Lean `String` (sequences of
Unicode code points, matching Python `str` indexing/slicing semantics);
Python `set` is modelled as `Finset String`; exceptions are modelled with
`Except`/an explicit exception type; the external network calls are
modelled as function parameters (oracles) so that theorems quantify over
every possible upstream behaviour.
-/

/-- Python `str.split()` with no arguments: split on runs of whitespace,
dropping empty pieces.  Implemented by structural recursion on the
character list so that the kernel can evaluate it. -/
def wordsAux : List Char → List Char → List String
  | [], acc => if acc.isEmpty then [] else [String.mk acc.reverse]
  | c :: rest, acc =>
    if c.isWhitespace then
      if acc.isEmpty then wordsAux rest [] else String.mk acc.reverse :: wordsAux rest []
    else wordsAux rest (c :: acc)

/-- Python `s.split()` (whitespace split, empties dropped). -/
def pyWords (s : String) : List String :=
  wordsAux s.toList []

/-- Python `s.lower()`, modelled character-wise with `Char.toLower`. -/
def pyLower (s : String) : String :=
  String.mk (s.toList.map Char.toLower)

/-- Python `s.strip(chars)`: remove characters of `chars` from BOTH ends. -/
def pyStrip (s : String) (chars : List Char) : String :=
  String.mk (((s.toList.dropWhile (chars.contains ·)).reverse.dropWhile (chars.contains ·)).reverse)

/-- Trailing-only strip (`s.rstrip(chars)` in Python).  This is NOT what the
code does; it is the operation the specification's words describe, kept for
comparison with `pyStrip`. -/
def pyRstrip (s : String) (chars : List Char) : String :=
  String.mk ((s.toList.reverse.dropWhile (chars.contains ·)).reverse)

/-- Python `s.strip()` with no arguments: strip whitespace from both ends. -/
def pyStripWs (s : String) : String :=
  String.mk (((s.toList.dropWhile Char.isWhitespace).reverse.dropWhile Char.isWhitespace).reverse)

/-- Python `s[:n]` on a `str`: the first `n` code points. -/
def pyslice (s : String) (n : Nat) : String :=
  String.mk (s.toList.take n)

/-- The punctuation characters stripped by the keyword tokenizer
(`'.,?!'` in the source). -/
def punctChars : List Char := ['.', ',', '?', '!']

/-- One context snippet: a Python dict with keys `source` and `text`. -/
structure ContextSnippet where
  source : String
  text : String
deriving DecidableEq, Repr

/-- One video record as produced by `get_trending_videos`. -/
structure VideoSummary where
  video_id : String
  title : String
  channel_title : String
  view_count : Nat
  like_count : Nat
  comment_count : Nat
  thumbnail_url : String
  description : String
deriving DecidableEq, Repr

/-- One comment record as produced by `get_video_comments`. -/
structure CommentRec where
  author : String
  text : String
  like_count : Nat
deriving DecidableEq, Repr

/-- The query term set of `keyword_search_answer`:
`set([w.lower() for w in query.split() if len(w) > 2])`. -/
def q_words (query : String) : Finset String :=
  (((pyWords query).filter (fun w => 2 < w.length)).map pyLower).toFinset

/-- The snippet token set of `keyword_search_answer`:
`set([w.lower().strip('.,?!') for w in text.split()])`.
Note Python `strip` removes the punctuation from both ends. -/
def text_words (text : String) : Finset String :=
  ((pyWords text).map (fun w => pyStrip (pyLower w) punctChars)).toFinset

/-- A snippet's relevance score: `len(q_words & text_words)`. -/
def ctxScore (query : String) (ctx : ContextSnippet) : Nat :=
  (q_words query ∩ text_words ctx.text).card

/-- The snippet token set the specification's words describe (trailing-only
punctuation strip).  Used only to compare the spec against the code. -/
def claim_text_words (text : String) : Finset String :=
  ((pyWords text).map (fun w => pyRstrip (pyLower w) punctChars)).toFinset

/-- The score the specification's words describe (trailing-only strip). -/
def claim_score (query : String) (ctx : ContextSnippet) : Nat :=
  (q_words query ∩ claim_text_words ctx.text).card

/-- The `scored` list built by the loop in `keyword_search_answer`:
pairs `(score, ctx)` for exactly the snippets with score > 0, in
original context order. -/
def scoredList (query : String) (contexts : List ContextSnippet) : List (Nat × ContextSnippet) :=
  contexts.filterMap (fun ctx =>
    if 0 < ctxScore query ctx then some (ctxScore query ctx, ctx) else none)

/-- The comparison used to model `scored.sort(key=lambda x: x[0], reverse=True)`:
descending by score; merge sort with this comparison is stable, matching
Python's stable sort. -/
def scoreLe (a b : Nat × ContextSnippet) : Bool :=
  b.1 ≤ a.1

/-- The in-place `scored.sort(key=lambda x: x[0], reverse=True)`. -/
def sortScored (l : List (Nat × ContextSnippet)) : List (Nat × ContextSnippet) :=
  l.mergeSort scoreLe

/-- The fixed "not found" message returned when nothing scores above 0. -/
def notFoundMsg : String :=
  "관련 정보를 찾지 못했습니다. 더 구체적으로 질문해 주세요.\n\n(더 좋은 답변을 원하시면 OpenAI API 키를 OPENAI_API_KEY 환경 변수에 설정하고 사이드바의 "
    ++ String.singleton (Char.ofNat 39) ++ "OpenAI로 챗봇 사용" ++ String.singleton (Char.ofNat 39)
    ++ "을 켜세요.)"

/-- Rendering of one snippet: the f-string between brackets, `[{source}] {text}`. -/
def renderSnippet (ctx : ContextSnippet) : String :=
  "[" ++ ctx.source ++ "] " ++ ctx.text

/-- `keyword_search_answer(query, contexts, max_snippets=5)` from the source. -/
def keyword_search_answer (query : String) (contexts : List ContextSnippet)
    (max_snippets : Nat := 5) : String :=
  let scored := scoredList query contexts
  let sorted := sortScored scored
  if sorted.isEmpty then
    notFoundMsg
  else
    "관련 문장:\n\n" ++ String.intercalate "\n\n---\n\n"
      ((sorted.take max_snippets).map (fun p => renderSnippet p.2))

/-- A `googleapiclient.errors.HttpError` raised by an upstream API call.
Per the client library's contract, upstream call failures (quota, auth,
comments disabled, permission denied) surface as this exception type,
which is exactly what the source's `except HttpError` clauses catch. -/
structure HttpErr where
  msg : String
deriving DecidableEq, Repr

/-- A Python exception escaping one of the embedded functions. -/
inductive PyExn where
  | runtimeError (msg : String)
deriving DecidableEq, Repr

/-- The request object built by `youtube.videos().list(...)` in
`get_trending_videos` (lines 60-65): note `maxResults` is passed through
without any clamping. -/
structure TrendingRequest where
  part : String
  chart : String
  regionCode : String
  maxResults : Nat
deriving DecidableEq, Repr

/-- The request object built by `youtube.commentThreads().list(...)` in
`get_video_comments` (lines 97-103): `maxResults` is `min(max_results, 100)`. -/
structure CommentThreadsRequest where
  part : String
  videoId : String
  maxResults : Nat
  textFormat : String
  order : String
deriving DecidableEq, Repr

/-- The trending request as constructed by the source. -/
def trending_request (region_code : String) (max_results : Nat) : TrendingRequest :=
  ⟨"snippet,contentDetails,statistics", "mostPopular", region_code, max_results⟩

/-- The comment-threads request as constructed by the source. -/
def commentThreads_request (video_id : String) (max_results : Nat) : CommentThreadsRequest :=
  ⟨"snippet", video_id, min max_results 100, "plainText", "relevance"⟩

/-- `get_trending_videos(region_code='KR', max_results=30)`.  The network
call is an oracle mapping the built request to either a response (already
normalized to `VideoSummary` records) or an `HttpError`; the function
re-raises `HttpError` as a `RuntimeError` with a prefixed message. -/
def get_trending_videos (upstream : TrendingRequest → Except HttpErr (List VideoSummary))
    (region_code : String := "KR") (max_results : Nat := 30) :
    Except PyExn (List VideoSummary) :=
  match upstream (trending_request region_code max_results) with
  | Except.ok vs => Except.ok vs
  | Except.error e => Except.error (PyExn.runtimeError ("YouTube API 요청 오류: " ++ e.msg))

/-- `get_video_comments(video_id, max_results=50)`.  The upstream call is
an oracle on the built request; an `HttpError` is swallowed and `[]` is
returned, so the function's result type has no exception channel at all. -/
def get_video_comments (upstream : CommentThreadsRequest → Except HttpErr (List CommentRec))
    (video_id : String) (max_results : Nat := 50) : List CommentRec :=
  match upstream (commentThreads_request video_id max_results) with
  | Except.ok items => items
  | Except.error _ => []

/-- The fixed system prompt of `openai_chat_answer`. -/
def system_prompt : String :=
  "당신은 유튜브 영상 정보를 바탕으로 질문에 답변하는 친절한 도우미입니다. "
    ++ "아래 제공된 컨텍스트(제목, 설명, 댓글, 또는 Top30 목록)만을 사용하여 사실에 근거한 답변을 작성하세요. "
    ++ "모를 경우 추측하지 말고 " ++ String.singleton (Char.ofNat 39) ++ "제공된 정보로는 알기 어렵습니다"
    ++ String.singleton (Char.ofNat 39) ++ "라고 답하세요. "
    ++ "답변은 한국어로 해주세요."

/-- The context block of `openai_chat_answer`: `"\n\n".join(ctx_texts)[:7000]`
where each `ctx_texts` entry is the `[{src}] {txt}` rendering.  The 7000
character cap is applied to the already-joined string. -/
def context_block (contexts : List ContextSnippet) : String :=
  pyslice (String.intercalate "\n\n" (contexts.map renderSnippet)) 7000

/-- The user prompt of `openai_chat_answer`. -/
def user_prompt (question : String) (contexts : List ContextSnippet) : String :=
  "질문: " ++ question ++ "\n\n컨텍스트:\n" ++ context_block contexts

/-- `openai_chat_answer(question, contexts)`.  `oa_available` embeds the
module flag `OPENAI_AVAILABLE`; `completion` is an oracle for the entire
`try` body (the `openai.ChatCompletion.create` call on the two prompts plus
the response-field extraction), returning either the answer content or the
message of whatever exception was raised.  When unavailable the function
raises `RuntimeError`; otherwise every exception from the completion call
is caught and folded into the returned text. -/
def openai_chat_answer (oa_available : Bool)
    (completion : String → String → Except String String)
    (question : String) (contexts : List ContextSnippet) : Except PyExn String :=
  if oa_available then
    match completion system_prompt (user_prompt question contexts) with
    | Except.ok content => Except.ok (pyStripWs content)
    | Except.error e => Except.ok ("OpenAI 응답 중 오류가 발생했습니다: " ++ e)
  else
    Except.error (PyExn.runtimeError "OpenAI SDK/키가 설정되어 있지 않습니다.")

/-- The module flag `OPENAI_AVAILABLE` (lines 17-32): true exactly when the
`openai` package imported successfully AND `OPENAI_API_KEY` is set. -/
def openai_available (importable : Bool) (key_present : Bool) : Bool :=
  importable && key_present

/-- One line of the Top30 listing: `f"{idx}. {v['title']} — {v['channel_title']}"`. -/
def top30_lines : List VideoSummary → Nat → List String
  | [], _ => []
  | v :: rest, idx => (toString idx ++ ". " ++ v.title ++ " — " ++ v.channel_title)
      :: top30_lines rest (idx + 1)

/-- The Top30 snippet text: the lines joined with newlines, 1-indexed. -/
def top30_text (trending : List VideoSummary) : String :=
  String.intercalate "\n" (top30_lines trending 1)

/-- The comments snippet text: the first at most 10 comments rendered as
`f"{c['author']}: {c['text']}"`, joined with newlines. -/
def comments_text (comments : List CommentRec) : String :=
  String.intercalate "\n" ((comments.take 10).map (fun c => c.author ++ ": " ++ c.text))

/-- The context assembly of the question branch (lines 229-263), mirroring
the sequential `contexts.append(...)` calls: optional Top30 snippet, then
the title snippet, then the description snippet (first 2000 characters)
when the description is non-empty, then the comments snippet when the
fetched comment list is non-empty. -/
def assemble_contexts (include_top30 : Bool) (trending : List VideoSummary)
    (selected : VideoSummary) (comments : List CommentRec) : List ContextSnippet :=
  let contexts : List ContextSnippet := []
  let contexts := if include_top30 then contexts ++ [⟨"Top30 목록", top30_text trending⟩] else contexts
  let contexts := contexts ++ [⟨"제목", selected.title⟩]
  let contexts := if selected.description == "" then contexts
    else contexts ++ [⟨"설명", pyslice selected.description 2000⟩]
  let contexts := if comments.isEmpty then contexts
    else contexts ++ [⟨"댓글", comments_text comments⟩]
  contexts

/-- Which answer strategy the dispatch invoked. -/
inductive Strategy where
  | model
  | keywordFallback
deriving DecidableEq, Repr

/-- The user-visible outcome of the question branch. -/
inductive QuestionOutcome where
  | warned (msg : String)
  | answered (answer : String)
  | raised (e : PyExn)
deriving DecidableEq, Repr

/-- An execution trace of the question branch: the outcome, how many
upstream comment fetches were issued, the assembled contexts (if any) and
the strategy invoked (if any). -/
structure QuestionTrace where
  outcome : QuestionOutcome
  comment_fetches : Nat
  contexts : Option (List ContextSnippet)
  strategy : Option Strategy
deriving DecidableEq, Repr

/-- The question-submission branch (lines 223-272): validate the stripped
question; if empty, warn and stop; otherwise fetch comments (one upstream
call, `max_results=20`), assemble the contexts, and dispatch on
`use_openai and OPENAI_AVAILABLE` to `openai_chat_answer` or
`keyword_search_answer`. -/
def handle_question (user_question : String) (use_openai : Bool) (oa_available : Bool)
    (include_top30 : Bool) (selected : VideoSummary) (trending : List VideoSummary)
    (upstream : CommentThreadsRequest → Except HttpErr (List CommentRec))
    (completion : String → String → Except String String) : QuestionTrace :=
  if pyStripWs user_question == "" then
    ⟨QuestionOutcome.warned "질문을 입력해 주세요.", 0, none, none⟩
  else
    let comments := get_video_comments upstream selected.video_id 20
    let contexts := assemble_contexts include_top30 trending selected comments
    if use_openai && oa_available then
      match openai_chat_answer oa_available completion user_question contexts with
      | Except.ok t => ⟨QuestionOutcome.answered t, 1, some contexts, some Strategy.model⟩
      | Except.error e => ⟨QuestionOutcome.raised e, 1, some contexts, some Strategy.model⟩
    else
      ⟨QuestionOutcome.answered (keyword_search_answer user_question contexts), 1,
        some contexts, some Strategy.keywordFallback⟩

/-- A sample selected video used to instantiate universally quantified
theorems at concrete inputs. -/
def sampleVideo : VideoSummary :=
  ⟨"vid01", "오늘 좋아요 많은 영상", "채널A", 1000, 10, 3, "", "영상 설명입니다."⟩

/-- A sample upstream comment oracle that always fails with an `HttpError`
(comments disabled). -/
def sampleUpstreamFail : CommentThreadsRequest → Except HttpErr (List CommentRec) :=
  fun _ => Except.error ⟨"403 commentsDisabled"⟩

/-- A sample completion oracle that returns a fixed answer. -/
def sampleCompletion : String → String → Except String String :=
  fun _ _ => Except.ok " 답변 "

/-- C4: the model strategy's context block is the `[{source_label}] {text}`
renderings joined by blank lines and then truncated to the first 7000
characters of the already-joined string, so it is always at most 7000
characters and, when truncation fires, a prefix of the joined string
(earlier-assembled sources are preserved over later ones). -/
theorem C4_context_block_cap (contexts : List ContextSnippet) :
    context_block contexts
        = pyslice (String.intercalate "\n\n" (contexts.map renderSnippet)) 7000 ∧
    (context_block contexts).length ≤ 7000 ∧
    ∃ rest : String,
      String.intercalate "\n\n" (contexts.map renderSnippet) = context_block contexts ++ rest := by
  refine ⟨rfl, ?_, ?_⟩
  · show ((String.intercalate "\n\n" (contexts.map renderSnippet)).toList.take 7000).length ≤ 7000
    exact List.length_take_le 7000 _
  · refine ⟨String.mk ((String.intercalate "\n\n" (contexts.map renderSnippet)).toList.drop 7000), ?_⟩
    show String.intercalate "\n\n" (contexts.map renderSnippet)
        = String.mk ((String.intercalate "\n\n" (contexts.map renderSnippet)).toList.take 7000
            ++ (String.intercalate "\n\n" (contexts.map renderSnippet)).toList.drop 7000)
    rw [List.take_append_drop]
    rfl

/-- C6: with the model capability available, `openai_chat_answer` never
propagates an exception from the completion call: for every completion
outcome it returns `Except.ok` with an answer text, and when the call
raised with message `e` the text is the fixed human-readable failure
indicator (containing the word 오류, "error") followed by `e`. -/
theorem C6_model_failure_to_text (completion : String → String → Except String String)
    (question : String) (contexts : List ContextSnippet) :
    openai_chat_answer true completion question contexts =
      Except.ok (match completion system_prompt (user_prompt question contexts) with
        | Except.ok content => pyStripWs content
        | Except.error e => "OpenAI 응답 중 " ++ ("오류" ++ ("가 발생했습니다: " ++ e))) := by
  cases h : completion system_prompt (user_prompt question contexts) with
  | ok c => simp [openai_chat_answer, h]
  | error e =>
    simp only [openai_chat_answer, h, if_true]
    rw [← String.append_assoc, ← String.append_assoc]
    rfl

/-- C7: `get_video_comments` never raises on upstream failure: its result
type has no exception channel, an upstream `HttpError` yields the empty
list, and an upstream success yields exactly the fetched records. -/
theorem C7_comments_never_raise
    (upstream : CommentThreadsRequest → Except HttpErr (List CommentRec))
    (video_id : String) (m : Nat) :
    (∀ e, upstream (commentThreads_request video_id m) = Except.error e →
        get_video_comments upstream video_id m = []) ∧
    (∀ cs, upstream (commentThreads_request video_id m) = Except.ok cs →
        get_video_comments upstream video_id m = cs) := by
  constructor <;> intro x h <;> simp [get_video_comments, h]

/-- C7 witness: a concrete always-failing upstream yields the empty list. -/
theorem C7_comments_never_raise_witness :
    get_video_comments sampleUpstreamFail "vid01" 10 = [] :=
  (C7_comments_never_raise sampleUpstreamFail "vid01" 10).1 ⟨"403 commentsDisabled"⟩ rfl

/-- C8 counterexample: `get_trending_videos` does NOT clamp `maxResults`;
called with `max_results = 150` it builds a request whose `maxResults`
field is 150, exceeding the claimed ceiling of 100. -/
theorem C8_counterexample :
    (trending_request "KR" 150).maxResults = 150 ∧
    ¬ (trending_request "KR" 150).maxResults ≤ 100 := by
  exact ⟨rfl, by decide⟩

/-- C8 amended: only `get_video_comments` clamps, sending
`min(max_results, 100)` (hence never above 100); `get_trending_videos`
passes its `max_results` argument through unclamped, and the module's only
call to it uses the default of 30, which is at most 100. -/
theorem C8_amended_clamping (video_id region_code : String) (m : Nat) :
    (commentThreads_request video_id m).maxResults = min m 100 ∧
    (commentThreads_request video_id m).maxResults ≤ 100 ∧
    (∀ k, (trending_request region_code k).maxResults = k) ∧
    (trending_request region_code 30).maxResults ≤ 100 := by
  exact ⟨rfl, Nat.min_le_right m 100, fun k => rfl,
    show (30 : Nat) ≤ 100 by decide⟩

/-- C10: when the model capability is unavailable (package not importable,
or the credential absent), calling `openai_chat_answer` directly raises a
`RuntimeError` instead of returning an answer. -/
theorem C10_unavailable_raises (importable key_present : Bool)
    (completion : String → String → Except String String)
    (question : String) (contexts : List ContextSnippet)
    (h : importable = false ∨ key_present = false) :
    openai_chat_answer (openai_available importable key_present) completion question contexts =
      Except.error (PyExn.runtimeError "OpenAI SDK/키가 설정되어 있지 않습니다.") := by
  have hoa : openai_available importable key_present = false := by
    rcases h with h | h <;> simp [openai_available, h]
  rw [hoa]
  simp [openai_chat_answer]

/-- C10 witness: package importable but credential absent, at concrete
inputs. -/
theorem C10_unavailable_raises_witness :
    openai_chat_answer (openai_available true false) sampleCompletion "질문" [] =
      Except.error (PyExn.runtimeError "OpenAI SDK/키가 설정되어 있지 않습니다.") :=
  C10_unavailable_raises true false sampleCompletion "질문" [] (Or.inr rfl)

/-- C9: an empty (after stripping) question is rejected locally with the
inline warning: no upstream comment fetch is issued, no context is
assembled, and neither answer strategy is invoked. -/
theorem C9_empty_question_rejected (q : String) (use_openai oa include_top30 : Bool)
    (selected : VideoSummary) (trending : List VideoSummary)
    (upstream : CommentThreadsRequest → Except HttpErr (List CommentRec))
    (completion : String → String → Except String String)
    (h : pyStripWs q = "") :
    handle_question q use_openai oa include_top30 selected trending upstream completion =
      ⟨QuestionOutcome.warned "질문을 입력해 주세요.", 0, none, none⟩ := by
  simp [handle_question, h]

/-- C9 witness: the literally empty question, at concrete inputs. -/
theorem C9_empty_question_rejected_witness :
    handle_question "" true true true sampleVideo [] sampleUpstreamFail sampleCompletion =
      ⟨QuestionOutcome.warned "질문을 입력해 주세요.", 0, none, none⟩ :=
  C9_empty_question_rejected "" true true true sampleVideo [] sampleUpstreamFail
    sampleCompletion rfl

/-- C1 counterexample: the code strips the punctuation `.,?!` from BOTH
ends of each snippet word (Python `str.strip`), not only from the trailing
end as the claim states.  For question `"abc"` and snippet text `".abc"`,
the trailing-strip formula of the claim gives score 0 (the snippet would
not be retained), but the code scores 1 and retains the snippet. -/
theorem C1_counterexample :
    ctxScore "abc" ⟨"제목", ".abc"⟩ = 1 ∧
    claim_score "abc" ⟨"제목", ".abc"⟩ = 0 ∧
    scoredList "abc" [⟨"제목", ".abc"⟩] = [(1, ⟨"제목", ".abc"⟩)] := by
  decide

/-- C1 amended: the query term set is the lowercased whitespace-split words
of the question strictly longer than 2 characters; each snippet's token set
is its lowercased whitespace-split words with the punctuation `.,?!`
stripped from both leading and trailing ends; the score is the size of the
intersection of the two sets; and a pair `(s, ctx)` is in the candidate
list exactly when `ctx` is one of the contexts, `s` is its score, and the
score is strictly positive. -/
theorem C1_amended_scoring (query : String) (contexts : List ContextSnippet)
    (ctx : ContextSnippet) (s : Nat) :
    q_words query = (((pyWords query).filter (fun w => 2 < w.length)).map pyLower).toFinset ∧
    text_words ctx.text
        = ((pyWords ctx.text).map (fun w => pyStrip (pyLower w) punctChars)).toFinset ∧
    ctxScore query ctx = (q_words query ∩ text_words ctx.text).card ∧
    ((s, ctx) ∈ scoredList query contexts ↔
        s = ctxScore query ctx ∧ 0 < s ∧ ctx ∈ contexts) := by
  refine ⟨rfl, rfl, rfl, ?_⟩
  simp only [scoredList, List.mem_filterMap]
  constructor
  · rintro ⟨a, ha, hfa⟩
    split at hfa
    · rename_i h0
      rw [Option.some.injEq, Prod.mk.injEq] at hfa
      obtain ⟨h1, h2⟩ := hfa
      subst h2
      exact ⟨h1.symm, h1 ▸ h0, ha⟩
    · exact absurd hfa (by simp)
  · rintro ⟨hs, h0, hmem⟩
    subst hs
    exact ⟨ctx, hmem, by rw [if_pos h0]⟩

/-- C3: the assembled context is exactly the optional Top30 snippet (iff
the flag is set), then always the title snippet with the selected video's
title, then the description snippet holding exactly the first 2000
characters of the description (iff the description is non-empty), then the
comments snippet joining the first at-most-10 comments as
`{author}: {text}` lines in fetched order (iff the comment list is
non-empty); the snippet count is always between 1 and 4, and assembly is a
total function (it never raises). -/
theorem C3_assembly_shape (include_top30 : Bool) (trending : List VideoSummary)
    (selected : VideoSummary) (comments : List CommentRec) :
    assemble_contexts include_top30 trending selected comments =
      (if include_top30 then [⟨"Top30 목록", top30_text trending⟩] else [])
        ++ [⟨"제목", selected.title⟩]
        ++ (if selected.description == "" then []
            else [⟨"설명", pyslice selected.description 2000⟩])
        ++ (if comments.isEmpty then [] else [⟨"댓글", comments_text comments⟩]) ∧
    1 ≤ (assemble_contexts include_top30 trending selected comments).length ∧
    (assemble_contexts include_top30 trending selected comments).length ≤ 4 := by
  refine ⟨?_, ?_, ?_⟩ <;>
    (simp only [assemble_contexts]; split_ifs <;> simp)

/-- Helper: with the capability flag true, `openai_chat_answer` always
returns `Except.ok`. -/
theorem openai_chat_answer_ok (completion : String → String → Except String String)
    (question : String) (contexts : List ContextSnippet) :
    ∃ t, openai_chat_answer true completion question contexts = Except.ok t := by
  cases h : completion system_prompt (user_prompt question contexts) with
  | ok c => exact ⟨pyStripWs c, by simp [openai_chat_answer, h]⟩
  | error e => exact ⟨"OpenAI 응답 중 오류가 발생했습니다: " ++ e, by simp [openai_chat_answer, h]⟩

/-- C5: for a non-empty question, the strategy invoked by the dispatch is
the model strategy exactly when both booleans hold — the user requested
model use AND the capability is available (package importable and
credential present); every other combination invokes the keyword
fallback.  In particular `use_openai = true` with no credential invokes
the keyword fallback, never the model strategy. -/
theorem C5_strategy_selection (q : String) (use_openai importable key_present include_top30 : Bool)
    (selected : VideoSummary) (trending : List VideoSummary)
    (upstream : CommentThreadsRequest → Except HttpErr (List CommentRec))
    (completion : String → String → Except String String)
    (h : pyStripWs q ≠ "") :
    (handle_question q use_openai (openai_available importable key_present) include_top30
        selected trending upstream completion).strategy =
      some (if use_openai && (importable && key_present) then Strategy.model
            else Strategy.keywordFallback) := by
  have hq : (pyStripWs q == "") = false := by
    simpa using h
  by_cases hc : (use_openai && (importable && key_present)) = true
  · have hoa : (importable && key_present) = true := (Bool.and_eq_true _ _).mp hc |>.2
    have hu : use_openai = true := (Bool.and_eq_true _ _).mp hc |>.1
    obtain ⟨t, ht⟩ := openai_chat_answer_ok completion q
      (assemble_contexts include_top30 trending selected
        (get_video_comments upstream selected.video_id 20))
    simp [handle_question, openai_available, hq, hc, hoa, hu, ht]
  · have hc' : (use_openai && (importable && key_present)) = false :=
      Bool.eq_false_iff.mpr hc
    simp [handle_question, openai_available, hq, hc']

/-- C5 witness: model use requested but no credential present — the
keyword fallback is selected. -/
theorem C5_strategy_selection_witness :
    (handle_question "좋아요 영상 질문" true (openai_available true false) true sampleVideo []
        sampleUpstreamFail sampleCompletion).strategy = some Strategy.keywordFallback := by
  have h := C5_strategy_selection "좋아요 영상 질문" true true false true sampleVideo []
    sampleUpstreamFail sampleCompletion (by decide)
  simpa using h

/-- The descending score comparison is transitive. -/
theorem scoreLe_trans : ∀ (a b c : Nat × ContextSnippet),
    scoreLe a b → scoreLe b c → scoreLe a c := by
  intro a b c h1 h2
  simp only [scoreLe, decide_eq_true_eq] at h1 h2 ⊢
  omega

/-- The descending score comparison is total. -/
theorem scoreLe_total : ∀ (a b : Nat × ContextSnippet),
    scoreLe a b || scoreLe b a := by
  intro a b
  simp only [scoreLe, Bool.or_eq_true, decide_eq_true_eq]
  exact Nat.le_total b.1 a.1

/-- C2: the keyword fallback's ranking is a permutation of the
positively-scored candidates, sorted descending by score; the sort is
stable (for every score value, the candidates holding it appear in their
original assembly order); the rendered result takes at most the top 5
candidates as `[{source}] {text}` blocks joined by a separator line under
the 관련 문장 ("related sentences") header, and when no snippet scores
above 0 the result is the constant `notFoundMsg` (identical across all
such calls), which advises enabling the OpenAI strategy. -/
theorem C2_ranking_and_rendering (query : String) (contexts : List ContextSnippet) :
    List.Perm (sortScored (scoredList query contexts)) (scoredList query contexts) ∧
    List.Pairwise (fun a b : Nat × ContextSnippet => b.1 ≤ a.1)
      (sortScored (scoredList query contexts)) ∧
    (∀ s : Nat, (sortScored (scoredList query contexts)).filter (fun p => p.1 == s)
        = (scoredList query contexts).filter (fun p => p.1 == s)) ∧
    ((sortScored (scoredList query contexts)).isEmpty = (scoredList query contexts).isEmpty) ∧
    keyword_search_answer query contexts =
      (if (sortScored (scoredList query contexts)).isEmpty then notFoundMsg
       else "관련 문장:\n\n" ++ String.intercalate "\n\n---\n\n"
          (((sortScored (scoredList query contexts)).take 5).map (fun p => renderSnippet p.2))) := by
  refine ⟨List.mergeSort_perm _ scoreLe, ?_, ?_, ?_, rfl⟩
  · have hp := List.sorted_mergeSort scoreLe_trans scoreLe_total (scoredList query contexts)
    exact hp.imp (fun h => of_decide_eq_true h)
  · intro s
    have hsub : List.Sublist ((scoredList query contexts).filter (fun p => p.1 == s))
        (scoredList query contexts) := List.filter_sublist _
    have hall : ∀ p ∈ (scoredList query contexts).filter (fun p => p.1 == s), p.1 = s := by
      intro p hp
      simpa using (List.mem_filter.mp hp).2
    have hpw : List.Pairwise (fun a b => scoreLe a b = true)
        ((scoredList query contexts).filter (fun p => p.1 == s)) :=
      List.pairwise_of_forall_mem_list (fun a ha b hb => by
        simp [scoreLe, hall a ha, hall b hb])
    have hfil : ((scoredList query contexts).filter (fun p => p.1 == s)).filter
          (fun p => p.1 == s)
        = (scoredList query contexts).filter (fun p => p.1 == s) :=
      List.filter_eq_self.mpr (fun a ha => (List.mem_filter.mp ha).2)
    have hsub3 : List.Sublist ((scoredList query contexts).filter (fun p => p.1 == s))
        ((sortScored (scoredList query contexts)).filter (fun p => p.1 == s)) := by
      have h2 := (List.sublist_mergeSort scoreLe_trans scoreLe_total hpw hsub).filter
        (fun p => p.1 == s)
      rw [hfil] at h2
      simpa only [sortScored] using h2
    have hperm : List.Perm ((sortScored (scoredList query contexts)).filter (fun p => p.1 == s))
        ((scoredList query contexts).filter (fun p => p.1 == s)) :=
      (List.mergeSort_perm (scoredList query contexts) scoreLe).filter _
    exact (hsub3.eq_of_length hperm.length_eq.symm).symm
  · rw [Bool.eq_iff_iff]
    simp only [List.isEmpty_iff_length_eq_zero, sortScored, List.length_mergeSort]
